import Mathlib

/-!
Verification of the NovaNews PWA article filtering, search and view-state
engine: a shallow embedding of the derived-state logic of `App.tsx`, of the
search filter of `SearchDialog.tsx`, and of the contact-form serverless
handler, together with theorems settling the specified behavioural contract.
-/

/-- The `Article` record of `App.tsx` (and, minus `content`, of
`SearchDialog.tsx` and `OfflinePage`): all fields are strings except the
mutable `isBookmarked` flag. -/
structure Article where
  id : String
  title : String
  excerpt : String
  content : String
  imageUrl : String
  category : String
  author : String
  publishedAt : String
  readTime : String
  isBookmarked : Bool
  deriving DecidableEq, Repr

/-- Characters of a string mapped through `Char.toLower`: models the JS
`toLowerCase()` calls on the (ASCII) article fields and queries. -/
def lowerChars (s : String) : List Char :=
  s.data.map Char.toLower

/-- `matchesAtStart n h` holds when `h` starts with the characters of `n`.
Building block for substring containment. -/
def matchesAtStart : List Char → List Char → Bool
  | [], _ => true
  | _ :: _, [] => false
  | c :: cs, d :: ds => c == d && matchesAtStart cs ds

/-- `occursWithin n h` holds when `n` occurs contiguously inside `h`: models
the JS `includes` calls of the search filter. -/
def occursWithin (needle : List Char) : List Char → Bool
  | [] => matchesAtStart needle []
  | d :: ds => matchesAtStart needle (d :: ds) || occursWithin needle ds

/-- Leading and trailing whitespace removed: models `query.trim()` in
`SearchDialog.tsx` (the guard deciding whether the search is active). -/
def trimChars (s : List Char) : List Char :=
  ((s.dropWhile Char.isWhitespace).reverse.dropWhile Char.isWhitespace).reverse

/-- The per-article predicate of the search filter in `SearchDialog.tsx`
lines 104-113: the lowercased query occurs in the lowercased `title`,
`excerpt` or `category` (the `content` and `author` fields are not
consulted). -/
def matchesQuery (query : String) (article : Article) : Bool :=
  occursWithin (lowerChars query) (lowerChars article.title)
    || occursWithin (lowerChars query) (lowerChars article.excerpt)
    || occursWithin (lowerChars query) (lowerChars article.category)

/-- Embeds `filteredArticles` of `SearchDialog.tsx` lines 101-116: when the
trimmed query is empty the search is inert and yields `[]`; otherwise the
matching articles in collection order, truncated to the first 8
(`slice(0, 8)`). The spec calls this operation `search`. -/
def search (articles : List Article) (query : String) : List Article :=
  if (trimChars query.data).isEmpty then []
  else (articles.filter (fun article => matchesQuery query article)).take 8

/-- Embeds `filteredArticles` of `App.tsx` lines 376-381: the `"home"`
sentinel means no filter, any other category selects the articles whose
`category` field equals it. The spec calls this operation
`filterByCategory`. -/
def filterByCategory (articles : List Article) (activeCategory : String) : List Article :=
  if activeCategory = "home" then articles
  else articles.filter (fun article => article.category == activeCategory)

/-- The view model the spec's View Composer produces: a featured article
(the head of the filtered sequence, when any) and the remaining regular
articles. -/
structure CategoryView where
  featured : Option Article
  regular : List Article
  deriving DecidableEq, Repr

/-- Embeds `featuredArticle` and `regularArticles` of `App.tsx` lines
383-384: `filteredArticles[0]` (absent on the empty list) and
`filteredArticles.slice(1)`. The spec calls this `composeCategoryView`. -/
def composeCategoryView (filtered : List Article) : CategoryView :=
  { featured := filtered.head?, regular := filtered.drop 1 }

/-- The per-article update inside `handleBookmark` of `App.tsx` lines
299-303: flip `isBookmarked` on the article whose `id` matches, leave any
other article untouched. -/
def toggleOne (articleId : String) (article : Article) : Article :=
  if article.id = articleId then { article with isBookmarked := !article.isBookmarked }
  else article

/-- Embeds the state update of `handleBookmark` in `App.tsx` lines 297-305:
map `toggleOne` over the collection. The spec calls this `toggleBookmark`. -/
def toggleBookmark (articles : List Article) (articleId : String) : List Article :=
  articles.map (toggleOne articleId)

/-- Embeds `savedArticles` of `App.tsx` lines 385-387: the bookmarked subset
of the canonical collection, in collection order. -/
def savedArticles (articles : List Article) : List Article :=
  articles.filter (fun article => article.isBookmarked)

/-! ### The seeded mock collection and the top-level view state of `App.tsx` -/

/-- Seed article 1 of the `mockArticles` list in `App.tsx`. -/
def mockArticle1 : Article where
  id := "1"
  title := "Breaking: Major Economic Policy Changes Announced for 2025"
  excerpt := "The government has unveiled comprehensive economic reforms that will reshape the business landscape across South Africa."
  content := "The South African government has announced sweeping economic policy changes that are set to take effect in early 2025. These reforms, described as the most significant in a decade, aim to stimulate growth and attract foreign investment.\n\nKey changes include new tax incentives for businesses, streamlined regulatory processes, and enhanced support for small and medium enterprises. The Minister of Finance emphasized that these measures are designed to create jobs and boost economic recovery.\n\nThe private sector has responded positively to the announcements, with several major corporations already indicating plans to expand their operations. Economic analysts predict that these changes could lead to a significant increase in GDP growth over the next two years.\n\nHowever, some critics argue that the reforms may not address fundamental structural issues in the economy. They call for more comprehensive changes to education, infrastructure, and governance systems.\n\nThe implementation timeline for these policies has been set for March 2025, with a phased approach to ensure smooth transition for all stakeholders."
  imageUrl := "https://images.unsplash.com/photo-1585829365295-ab7cd400c167?crop=entropy&cs=tinysrgb&fit=max&fm=jpg&ixid=M3w3Nzg4Nzd8MHwxfHNlYXJjaHwxfHxicmVha2luZyUyMG5ld3N8ZW58MXx8fHwxNzU3NjM1MjgxfDA&ixlib=rb-4.1.0&q=80&w=1080&utm_source=figma&utm_medium=referral"
  category := "breaking"
  author := "Sarah Johnson"
  publishedAt := "2024-12-18T08:30:00Z"
  readTime := "4 min read"
  isBookmarked := false

/-- Seed article 2 of the `mockArticles` list in `App.tsx`. -/
def mockArticle2 : Article where
  id := "2"
  title := "Local Business Leaders Discuss Post-Pandemic Recovery Strategies"
  excerpt := "Industry executives share insights on navigating the new business environment and opportunities for growth."
  content := "Business leaders from across various sectors gathered at the annual Economic Forum to discuss recovery strategies and future opportunities in the post-pandemic era.\n\nThe discussions centered around digital transformation, supply chain resilience, and the changing nature of work. Many companies have accelerated their digital initiatives, with some reporting productivity gains of up to 30%.\n\nKey themes that emerged include the importance of agile business models, investment in employee wellbeing, and sustainable business practices. Several speakers highlighted the need for businesses to be more responsive to changing consumer preferences.\n\nThe forum also addressed challenges such as skills shortages, rising operational costs, and regulatory uncertainty. Participants shared practical solutions and collaborative approaches to overcome these obstacles.\n\nLooking ahead, there was optimism about the potential for innovation and growth, particularly in technology, renewable energy, and healthcare sectors."
  imageUrl := "https://images.unsplash.com/photo-1606836591695-4d58a73eba1e?crop=entropy&cs=tinysrgb&fit=max&fm=jpg&ixid=M3w3Nzg4Nzd8MHwxfHNlYXJjaHwxfHxidXNpbmVzcyUyMG1lZXRpbmd8ZW58MXx8fHwxNzU3NjYxMTk0fDA&ixlib=rb-4.1.0&q=80&w=1080&utm_source=figma&utm_medium=referral"
  category := "business"
  author := "Michael Chen"
  publishedAt := "2024-12-18T06:15:00Z"
  readTime := "6 min read"
  isBookmarked := true

/-- Seed article 3 of the `mockArticles` list in `App.tsx`. -/
def mockArticle3 : Article where
  id := "3"
  title := "Rugby World Cup Preparations Intensify as Team Finalizes Squad"
  excerpt := "The national rugby team is making final preparations with key player selections announced ahead of the championship."
  content := "The national rugby team has announced its final squad for the upcoming international championships, with several surprise inclusions that have excited fans and pundits alike.\n\nCoach Williams emphasized the team's focus on youth and experience, selecting a balanced squad that combines veteran leadership with emerging talent. The selection process was described as the most competitive in recent years.\n\nTraining camps have been intensified, with players working on specific game strategies and fitness protocols. The coaching staff has implemented new tactical approaches based on analysis of recent international matches.\n\nSeveral key players have returned from injury, adding depth to the squad. The captain expressed confidence in the team's preparation and their ability to compete at the highest level.\n\nFans are showing tremendous support, with ticket sales for home matches exceeding expectations. The team's preparation has been closely followed by media and supporters who are optimistic about their chances."
  imageUrl := "https://images.unsplash.com/photo-1565483276060-e6730c0cc6a1?crop=entropy&cs=tinysrgb&fit=max&fm=jpg&ixid=M3w3Nzg4Nzd8MHwxfHNlYXJjaHwxfHxzcG9ydHMlMjBzdGFkaXVtfGVufDF8fHx8MTc1NzYxNjUxOHww&ixlib=rb-4.1.0&q=80&w=1080&utm_source=figma&utm_medium=referral"
  category := "sport"
  author := "David Thompson"
  publishedAt := "2024-12-17T14:20:00Z"
  readTime := "3 min read"
  isBookmarked := false

/-- Seed article 4 of the `mockArticles` list in `App.tsx`. -/
def mockArticle4 : Article where
  id := "4"
  title := "Parliamentary Debate on Education Reform Draws Public Interest"
  excerpt := "Proposed changes to the education system spark heated discussions among politicians and education experts."
  content := "The ongoing parliamentary debate on education reform has captured public attention, with proposed changes affecting curriculum, teacher training, and school infrastructure investment.\n\nThe Education Minister outlined a comprehensive plan to modernize the education system, including increased digital literacy programs, revised teacher qualification requirements, and substantial infrastructure improvements.\n\nOpposition parties have raised concerns about implementation timelines and budget allocations, calling for more detailed financial planning and phased rollouts. They argue that previous reforms lacked adequate consultation with educators and communities.\n\nEducation unions have organized consultations to gather input from teachers and school administrators. Their preliminary feedback highlights the need for adequate training and resources to support any new initiatives.\n\nParents and community organizations have also voiced their opinions, with many supporting the direction of reforms while expressing concerns about disruption to current students' education.\n\nThe debate is expected to continue for several weeks, with committee hearings scheduled to examine specific aspects of the proposed reforms in detail."
  imageUrl := "https://images.unsplash.com/photo-1510993968327-0766450f8a11?crop=entropy&cs=tinysrgb&fit=max&fm=jpg&ixid=M3w3Nzg4Nzd8MHwxfHNlYXJjaHwxfHxwb2xpdGljcyUyMGdvdmVybm1lbnR8ZW58MXx8fHwxNzU3NjE2NTE5fDA&ixlib=rb-4.1.0&q=80&w=1080&utm_source=figma&utm_medium=referral"
  category := "politics"
  author := "Anna Williams"
  publishedAt := "2024-12-17T11:45:00Z"
  readTime := "5 min read"
  isBookmarked := false

/-- Seed article 5 of the `mockArticles` list in `App.tsx`. -/
def mockArticle5 : Article where
  id := "5"
  title := "Fashion Week Showcases Sustainable Design Trends"
  excerpt := "Local designers embrace eco-friendly materials and ethical production methods in their latest collections."
  content := "This year's Fashion Week has highlighted a significant shift towards sustainable and ethical fashion, with designers showcasing innovative approaches to eco-friendly design.\n\nProminent local designers have embraced organic materials, recycled fabrics, and zero-waste production methods. The collections demonstrate that sustainable fashion can be both stylish and commercially viable.\n\nSeveral designers have partnered with local artisans and community cooperatives, creating employment opportunities while preserving traditional craftsmanship. These collaborations have resulted in unique pieces that tell authentic stories.\n\nThe event featured panel discussions on the future of fashion, addressing topics such as circular economy principles, consumer behavior changes, and the role of technology in sustainable production.\n\nFashion retailers have shown strong interest in the sustainable collections, with several major brands already placing orders. Industry experts predict that this trend will continue to grow as consumers become more environmentally conscious.\n\nThe success of this year's sustainable fashion showcase has positioned local designers as leaders in the global movement towards responsible fashion."
  imageUrl := "https://images.unsplash.com/photo-1610244922760-8bd7d912c4d8?crop=entropy&cs=tinysrgb&fit=max&fm=jpg&ixid=M3w3Nzg4Nzd8MHwxfHNlYXJjaHwxfHxsaWZlc3R5bGUlMjBmYXNoaW9ufGVufDF8fHx8MTc1NzY3MzM1Mnww&ixlib=rb-4.1.0&q=80&w=1080&utm_source=figma&utm_medium=referral"
  category := "lifestyle"
  author := "Emma Davis"
  publishedAt := "2024-12-16T16:30:00Z"
  readTime := "4 min read"
  isBookmarked := true

/-- Seed article 6 of the `mockArticles` list in `App.tsx`. -/
def mockArticle6 : Article where
  id := "6"
  title := "Tech Innovation Hub Launches New Startup Accelerator Program"
  excerpt := "Local entrepreneurs gain access to mentorship, funding, and resources through the new initiative."
  content := "The recently launched startup accelerator program at the city's Tech Innovation Hub is set to support the next generation of entrepreneurs with comprehensive resources and mentorship opportunities.\n\nThe program offers a 12-week intensive course covering business development, technology implementation, market research, and funding strategies. Participants will work directly with industry mentors and successful entrepreneurs.\n\nSelection criteria emphasize innovation potential, scalability, and positive social impact. The first cohort includes startups focused on fintech, healthtech, and sustainable technology solutions.\n\nFunding opportunities include seed investment, grants, and connections to venture capital networks. The program also provides access to state-of-the-art facilities and technical resources.\n\nProgram directors report overwhelming interest, with applications received from across the region. The diversity of applicants reflects the broad appeal of entrepreneurship and innovation in the current economic climate.\n\nSuccess metrics will include job creation, revenue generation, and successful funding rounds for participating startups. The program aims to establish the region as a leading technology and innovation center."
  imageUrl := "https://images.unsplash.com/photo-1568952433726-3896e3881c65?crop=entropy&cs=tinysrgb&fit=max&fm=jpg&ixid=M3w3Nzg4Nzd8MHwxfHNlYXJjaHwxfHx0ZWNobm9sb2d5JTIwaW5ub3ZhdGlvbnxlbnwxfHx8fDE3NTc1NzYyOTd8MA&ixlib=rb-4.1.0&q=80&w=1080&utm_source=figma&utm_medium=referral"
  category := "technology"
  author := "James Wilson"
  publishedAt := "2024-12-16T10:00:00Z"
  readTime := "3 min read"
  isBookmarked := false
/-- The `mockArticles` seed list of `App.tsx` lines 55-199, in source
order. -/
def mockArticles : List Article :=
  [mockArticle1, mockArticle2, mockArticle3, mockArticle4, mockArticle5, mockArticle6]

/-- The three mutually exclusive top-level screens of the application. -/
inductive Screen where
  | LIST
  | ARTICLE
  | OFFLINE
  deriving DecidableEq, Repr

/-- The state held by the `App` component that decides the top-level screen
and the derived views: the active category, the selected article, the
article collection and the offline flag (`useState` hooks of `App.tsx`
lines 225-245; the dialog-visibility booleans do not affect the screen
choice and are omitted). -/
structure AppState where
  activeCategory : String
  selectedArticle : Option Article
  articles : List Article
  isOffline : Bool
  deriving DecidableEq, Repr

/-- The initial state of `App`: category `"home"`, no selected article, the
seeded mock collection, online. -/
def initState : AppState :=
  { activeCategory := "home", selectedArticle := none,
    articles := mockArticles, isOffline := false }

/-- The render precedence of `App.tsx` lines 389-445: the offline shell is
returned first when `isOffline` is set, else the article view when an
article is selected, else the list view. -/
def render (s : AppState) : Screen :=
  if s.isOffline then Screen.OFFLINE
  else if s.selectedArticle.isSome then Screen.ARTICLE
  else Screen.LIST

/-- The UI events that mutate the `App` state. `setOffline true` covers the
browser offline event and the Preview Offline Mode button; `setOffline
false` covers the browser online event and both the Try Again (retry) and
Back buttons of `OfflinePage`, all of which call `setIsOffline(false)`. -/
inductive Event where
  | selectCategory (c : String)
  | openArticle (a : Article)
  | closeArticle
  | bookmark (id : String)
  | setOffline (b : Bool)
  deriving Repr

/-- The state update each event performs in `App.tsx`. -/
def applyEvent (s : AppState) : Event → AppState
  | Event.selectCategory c => { s with activeCategory := c }
  | Event.openArticle a => { s with selectedArticle := some a }
  | Event.closeArticle => { s with selectedArticle := none }
  | Event.bookmark id => { s with articles := toggleBookmark s.articles id }
  | Event.setOffline b => { s with isOffline := b }

/-- Which events have an on-screen control (or a browser-event source) in a
given state, read off the JSX of `App.tsx`, `OfflinePage` and
`SearchDialog`: category navigation exists on the list screen; an article
can be opened from the list and its search dialog, from the search dialog
kept mounted on the article screen, and from the saved-articles list of the
offline screen; back-from-article exists on the article screen; bookmark
toggles and the network-status flips are available everywhere. -/
def eventEnabled (s : AppState) : Event → Prop
  | Event.selectCategory _ => render s = Screen.LIST
  | Event.openArticle a =>
      (render s = Screen.LIST ∧ a ∈ s.articles)
        ∨ (render s = Screen.ARTICLE ∧ a ∈ s.articles)
        ∨ (render s = Screen.OFFLINE ∧ a ∈ savedArticles s.articles)
  | Event.closeArticle => render s = Screen.ARTICLE
  | Event.bookmark _ => True
  | Event.setOffline _ => True

/-- The states the application can reach from its initial state through
enabled events. -/
inductive Reachable : AppState → Prop where
  | init : Reachable initState
  | step (s : AppState) (e : Event) :
      Reachable s → eventEnabled s e → Reachable (applyEvent s e)

/-! ### The contact-form serverless handler (netlify function, part of the
repository outside the React tree) -/

/-- JS truthiness of an optional string field of the parsed request body:
an absent field and the empty string are both falsy, so both fail the
handler's presence check. -/
def truthy : Option String → Bool
  | none => false
  | some s => !s.isEmpty

/-- A character admitted by the two character classes of the handler's
email regex: neither whitespace nor the at sign. -/
def emailChar (c : Char) : Bool :=
  !c.isWhitespace && c != '@'

/-- `plusThen p k cs`: some nonempty prefix of `cs` consists of characters
satisfying `p` and `k` accepts the remainder — the scheme of a
one-or-more regex atom followed by a continuation, with backtracking. -/
def plusThen (p : Char → Bool) (k : List Char → Bool) : List Char → Bool
  | [] => false
  | c :: cs => p c && (k cs || plusThen p k cs)

/-- Matches a literal dot followed by one or more email characters running
to the end of the string. -/
def dotTail : List Char → Bool
  | '.' :: rest => plusThen emailChar (fun r => r.isEmpty) rest
  | _ => false

/-- Matches a literal at sign, one or more email characters, then
`dotTail`, running to the end of the string. -/
def atTail : List Char → Bool
  | '@' :: rest => plusThen emailChar dotTail rest
  | _ => false

/-- The anchored basic email-shape regex of the handler (one or more
non-whitespace non-at characters, an at sign, one or more such characters,
a dot, one or more such characters). -/
def emailShapeTest (email : String) : Bool :=
  plusThen emailChar atTail email.data

/-- The observable parts of the handler's HTTP response: status code, the
`error` field, the `required` field listing missing mandatory fields (empty
when absent from the body), the `success` flag and the `submissionId`. -/
structure ContactResponse where
  statusCode : Nat
  error : Option String
  required : List String
  success : Bool
  submissionId : Option String
  deriving DecidableEq, Repr

/-- Embeds the POST branch of `exports.handler` of the contact-form
function (lines 34-108), after the body has been parsed into its five
fields; `now` stands for `Date.now()`. Presence of name, email and message
is checked first (JS truthiness), then the email shape; otherwise a 200
response carries `success: true` and the submission id
`contact_` followed by the timestamp. -/
def contactFormHandler (name email subject message category : Option String)
    (now : Nat) : ContactResponse :=
  if !(truthy name) || !(truthy email) || !(truthy message) then
    { statusCode := 400, error := some "Missing required fields",
      required := ["name", "email", "message"], success := false, submissionId := none }
  else if !(emailShapeTest (email.getD "")) then
    { statusCode := 400, error := some "Invalid email address",
      required := [], success := false, submissionId := none }
  else
    { statusCode := 200, error := none, required := [],
      success := true, submissionId := some ("contact_" ++ toString now) }

/-- Two articles that agree on every field except possibly `author` and
`content` — the fields outside the search surface. -/
def agreesOffAuthorContent (a b : Article) : Prop :=
  a.id = b.id ∧ a.title = b.title ∧ a.excerpt = b.excerpt ∧ a.imageUrl = b.imageUrl ∧
  a.category = b.category ∧ a.publishedAt = b.publishedAt ∧ a.readTime = b.readTime ∧
  a.isBookmarked = b.isBookmarked

/-! ### Helper lemmas -/

/-- Mapping a function that fixes every element of a list leaves the list
unchanged. -/
theorem map_id_of_fixes {f : Article → Article} :
    ∀ {l : List Article}, (∀ a ∈ l, f a = a) → l.map f = l
  | [], _ => rfl
  | a :: l, h => by
    rw [List.map_cons, h a (List.mem_cons_self a l),
      map_id_of_fixes (fun x hx => h x (List.mem_cons_of_mem a hx))]

/-- Toggling the same article id twice restores the article. -/
theorem toggleOne_involutive (articleId : String) (a : Article) :
    toggleOne articleId (toggleOne articleId a) = a := by
  cases a with
  | mk i t e c u g au p r b =>
    by_cases h : i = articleId
    · simp [toggleOne, h]
    · simp [toggleOne, h]

/-- The search match predicate only reads `title`, `excerpt` and
`category`, so it agrees on articles related by `agreesOffAuthorContent`. -/
theorem matchesQuery_congr (q : String) {a b : Article}
    (h : agreesOffAuthorContent a b) : matchesQuery q a = matchesQuery q b := by
  obtain ⟨-, ht, he, -, hc, -, -, -⟩ := h
  rw [matchesQuery, matchesQuery, ht, he, hc]

/-- `List.filter` respects a relation under which the two predicates
agree. -/
theorem forall2_filter_congr {R : Article → Article → Prop} {p q : Article → Bool}
    (hpq : ∀ a b, R a b → p a = q b) {l₁ l₂ : List Article}
    (h : List.Forall₂ R l₁ l₂) : List.Forall₂ R (l₁.filter p) (l₂.filter q) := by
  induction h with
  | nil => exact List.Forall₂.nil
  | cons hab htl ih =>
    rename_i a b t₁ t₂
    by_cases hp : p a = true
    · rw [List.filter_cons_of_pos hp, List.filter_cons_of_pos (by rw [← hpq a b hab]; exact hp)]
      exact List.Forall₂.cons hab ih
    · rw [List.filter_cons_of_neg hp, List.filter_cons_of_neg (by rw [← hpq a b hab]; exact hp)]
      exact ih

/-- Lists related by `agreesOffAuthorContent` carry the same ids in the
same order. -/
theorem forall2_ids_eq {l₁ l₂ : List Article}
    (h : List.Forall₂ agreesOffAuthorContent l₁ l₂) :
    l₁.map (fun a => a.id) = l₂.map (fun a => a.id) := by
  induction h with
  | nil => rfl
  | cons hab htl ih => simp only [List.map_cons, hab.1, ih]

/-! ### The claims -/

/-- C1: for every collection and every query that is non-empty after
trimming, every search result contains the query case-insensitively in its
title, excerpt or category; the result has at most 8 elements; and it is a
prefix, in original collection order, of the full unbounded match set. -/
theorem search_results_match_bounded_and_ordered (A : List Article) (q : String)
    (h : (trimChars q.data).isEmpty = false) :
    (∀ a ∈ search A q,
      occursWithin (lowerChars q) (lowerChars a.title) = true ∨
      occursWithin (lowerChars q) (lowerChars a.excerpt) = true ∨
      occursWithin (lowerChars q) (lowerChars a.category) = true) ∧
    (search A q).length ≤ 8 ∧
    (∃ rest, A.filter (fun article => matchesQuery q article) = search A q ++ rest) := by
  have hs : search A q = (A.filter (fun article => matchesQuery q article)).take 8 := by
    simp [search, h]
  refine ⟨?_, ?_, ⟨(A.filter (fun article => matchesQuery q article)).drop 8, ?_⟩⟩
  · intro a ha
    rw [hs] at ha
    have hf := List.of_mem_filter (List.mem_of_mem_take ha)
    simpa [matchesQuery, or_assoc] using hf
  · rw [hs, List.length_take]
    exact min_le_left _ _
  · rw [hs]
    exact (List.take_append_drop 8 _).symm

/-- Witness for C1 at the seeded collection and the query `rugby`. -/
theorem search_results_match_bounded_and_ordered_witness :
    (trimChars "rugby".data).isEmpty = false ∧ (search mockArticles "rugby").length ≤ 8 :=
  ⟨by decide,
    (search_results_match_bounded_and_ordered mockArticles "rugby" (by decide)).2.1⟩

/-- C2: `composeCategoryView` designates the first element of the filtered
sequence as featured and the rest, order preserved, as regular; on the
empty sequence it yields no featured article and an empty regular list. -/
theorem composeCategoryView_featured_regular :
    composeCategoryView [] = { featured := none, regular := [] } ∧
    (∀ x : Article, composeCategoryView [x] = { featured := some x, regular := [] }) ∧
    (∀ x y z : Article,
      composeCategoryView [x, y, z] = { featured := some x, regular := [y, z] }) ∧
    (∀ (x : Article) (l : List Article),
      composeCategoryView (x :: l) = { featured := some x, regular := l }) :=
  ⟨rfl, fun _ => rfl, fun _ _ _ => rfl, fun _ _ => rfl⟩

/-- C3: toggling a bookmark twice with the same id restores the collection,
and toggling an id that matches no article leaves the collection
field-for-field unchanged. -/
theorem toggleBookmark_involution_and_missing_id_noop (A : List Article)
    (articleId : String) :
    toggleBookmark (toggleBookmark A articleId) articleId = A ∧
    ((∀ a ∈ A, a.id ≠ articleId) → toggleBookmark A articleId = A) := by
  constructor
  · rw [toggleBookmark, toggleBookmark, List.map_map]
    exact map_id_of_fixes (fun a _ => toggleOne_involutive articleId a)
  · intro h
    rw [toggleBookmark]
    exact map_id_of_fixes (fun a ha => by simp [toggleOne, h a ha])

/-- Witness for C3: toggling the id `zzz`, which no article carries, is a
no-op on a singleton collection. -/
theorem toggleBookmark_involution_and_missing_id_noop_witness :
    mockArticle1.id ≠ "zzz" ∧ toggleBookmark [mockArticle1] "zzz" = [mockArticle1] :=
  ⟨by decide,
    (toggleBookmark_involution_and_missing_id_noop [mockArticle1] "zzz").2
      (fun a ha => by rw [List.mem_singleton.mp ha]; decide)⟩

/-- C4: `savedArticles` returns exactly the bookmarked articles, in
canonical collection order (it is a sublist of the collection), and its
result depends only on the collection — neither the active category nor
any other view state influences it. -/
theorem savedArticles_exactly_bookmarked_independent (A : List Article) :
    List.Sublist (savedArticles A) A ∧
    (∀ a, a ∈ savedArticles A ↔ a ∈ A ∧ a.isBookmarked = true) ∧
    (∀ s t : AppState, s.articles = t.articles →
      savedArticles s.articles = savedArticles t.articles) ∧
    (∀ (s : AppState) (c : String),
      savedArticles (applyEvent s (Event.selectCategory c)).articles =
        savedArticles s.articles) := by
  refine ⟨List.filter_sublist A, ?_, ?_, ?_⟩
  · intro a
    simp [savedArticles, List.mem_filter]
  · intro s t h
    rw [h]
  · intro s c
    rfl

/-- Witness for C4: the saved list is unchanged by a category switch on the
seeded state. -/
theorem savedArticles_exactly_bookmarked_independent_witness :
    initState.articles = (applyEvent initState (Event.selectCategory "sport")).articles ∧
    savedArticles (applyEvent initState (Event.selectCategory "sport")).articles =
      savedArticles initState.articles :=
  ⟨rfl, (savedArticles_exactly_bookmarked_independent mockArticles).2.2.2
    initState "sport"⟩

/-- C5: the `home` sentinel means no filter — the collection comes back
unchanged in order and length. -/
theorem filterByCategory_home_identity (A : List Article) :
    filterByCategory A "home" = A := by
  simp [filterByCategory]

/-- C6: for a category other than `home`, every element of the filtered
result carries that category, the result is a sublist of the collection
(so the relative order of those elements is preserved), and filtering the
result again by the same category returns it unchanged. -/
theorem filterByCategory_members_order_idempotent (A : List Article) (c : String)
    (h : c ≠ "home") :
    (∀ a ∈ filterByCategory A c, a.category = c) ∧
    List.Sublist (filterByCategory A c) A ∧
    filterByCategory (filterByCategory A c) c = filterByCategory A c := by
  have hf : filterByCategory A c = A.filter (fun article => article.category == c) := by
    rw [filterByCategory, if_neg h]
  refine ⟨?_, ?_, ?_⟩
  · intro a ha
    rw [hf] at ha
    have hb := List.of_mem_filter ha
    exact eq_of_beq hb
  · rw [hf]
    exact List.filter_sublist A
  · rw [hf, filterByCategory, if_neg h]
    refine List.filter_eq_self.mpr (fun a ha => ?_)
    have hb := List.of_mem_filter ha
    exact hb

/-- Witness for C6 at the seeded collection and the category `sport`. -/
theorem filterByCategory_members_order_idempotent_witness :
    ("sport" : String) ≠ "home" ∧
    filterByCategory (filterByCategory mockArticles "sport") "sport" =
      filterByCategory mockArticles "sport" :=
  ⟨by decide,
    (filterByCategory_members_order_idempotent mockArticles "sport" (by decide)).2.2⟩

/-- C7: a query that is empty or consists only of whitespace trims to the
empty string, so the search is inert and returns the empty sequence. -/
theorem search_blank_query_inert (A : List Article) (q : String)
    (h : q.data.all Char.isWhitespace = true) :
    search A q = [] := by
  have h1 : q.data.dropWhile Char.isWhitespace = [] :=
    List.dropWhile_eq_nil_iff.mpr (fun x hx => List.all_eq_true.mp h x hx)
  have h2 : trimChars q.data = [] := by
    rw [trimChars, h1]
    rfl
  simp [search, h2]

/-- Witness for C7 on a whitespace-only query. -/
theorem search_blank_query_inert_witness :
    ("  ".data.all Char.isWhitespace = true) ∧ search mockArticles "  " = [] :=
  ⟨by decide, search_blank_query_inert mockArticles "  " (by decide)⟩

/-- C8 (amended): whenever the offline flag is set the rendered screen is
OFFLINE regardless of the selected article, and selecting an article while
offline stays inside the offline shell; the retry and back actions clear
the offline flag, after which the rendered screen is LIST when no article
is selected but ARTICLE when one was selected while offline — so OFFLINE
can transition to ARTICLE as well as to LIST. -/
theorem offline_render_precedence_amended (s : AppState) (h : s.isOffline = true) :
    render s = Screen.OFFLINE ∧
    (∀ a, render (applyEvent s (Event.openArticle a)) = Screen.OFFLINE) ∧
    (applyEvent s (Event.setOffline false)).isOffline = false ∧
    (s.selectedArticle = none →
      render (applyEvent s (Event.setOffline false)) = Screen.LIST) ∧
    (∀ a, s.selectedArticle = some a →
      render (applyEvent s (Event.setOffline false)) = Screen.ARTICLE) := by
  refine ⟨by simp [render, h], ?_, rfl, ?_, ?_⟩
  · intro a
    simp [render, applyEvent, h]
  · intro hn
    simp [render, applyEvent, hn]
  · intro a ha
    simp [render, applyEvent, ha]

/-- A concrete offline state of the application with no selected article. -/
def offlineTestState : AppState :=
  { activeCategory := "home", selectedArticle := none,
    articles := mockArticles, isOffline := true }

/-- Witness for the amended C8 at a concrete offline state. -/
theorem offline_render_precedence_amended_witness :
    offlineTestState.isOffline = true ∧ render offlineTestState = Screen.OFFLINE :=
  ⟨rfl, (offline_render_precedence_amended offlineTestState rfl).1⟩

/-- The reachable state obtained by going offline from the initial state
and then opening saved article 2 from the offline page. -/
def offlineWithSelection : AppState :=
  applyEvent (applyEvent initState (Event.setOffline true)) (Event.openArticle mockArticle2)

/-- C8 counterexample: a reachable state renders the OFFLINE screen, and
the retry action (clearing the offline flag) transitions it to the ARTICLE
screen, not LIST — so back-to-LIST is not the only screen transition
available from OFFLINE. -/
theorem offline_to_article_counterexample :
    Reachable offlineWithSelection ∧
    offlineWithSelection.isOffline = true ∧
    render offlineWithSelection = Screen.OFFLINE ∧
    render (applyEvent offlineWithSelection (Event.setOffline false)) = Screen.ARTICLE ∧
    Screen.ARTICLE ≠ Screen.LIST := by
  refine ⟨?_, rfl, rfl, rfl, by decide⟩
  have h0 : Reachable (applyEvent initState (Event.setOffline true)) :=
    Reachable.step initState (Event.setOffline true) Reachable.init trivial
  refine Reachable.step _ (Event.openArticle mockArticle2) h0 ?_
  refine Or.inr (Or.inr ⟨rfl, ?_⟩)
  exact List.Mem.head _

/-- C9: for every parsed POST body, a falsy name, email or message yields a
400 response listing the required fields; with all three present, an email
failing the shape regex yields a 400 invalid-email response; otherwise the
response is a 200 carrying `success: true` and the submission id built from
the timestamp. -/
theorem contactFormHandler_validation_branches
    (name email subject message category : Option String) (now : Nat) :
    ((truthy name = false ∨ truthy email = false ∨ truthy message = false) →
      (contactFormHandler name email subject message category now).statusCode = 400 ∧
      (contactFormHandler name email subject message category now).required =
        ["name", "email", "message"]) ∧
    (truthy name = true → truthy email = true → truthy message = true →
      emailShapeTest (email.getD "") = false →
      (contactFormHandler name email subject message category now).statusCode = 400 ∧
      (contactFormHandler name email subject message category now).error =
        some "Invalid email address") ∧
    (truthy name = true → truthy email = true → truthy message = true →
      emailShapeTest (email.getD "") = true →
      (contactFormHandler name email subject message category now).statusCode = 200 ∧
      (contactFormHandler name email subject message category now).success = true ∧
      (contactFormHandler name email subject message category now).submissionId =
        some ("contact_" ++ toString now)) := by
  refine ⟨?_, ?_, ?_⟩
  · intro h
    rcases h with h | h | h <;> simp [contactFormHandler, h]
  · intro h1 h2 h3 h4
    simp [contactFormHandler, h1, h2, h3, h4]
  · intro h1 h2 h3 h4
    simp [contactFormHandler, h1, h2, h3, h4]

/-- Witness for C9: a missing name, a malformed email and a well-formed
submission, each at concrete inputs. -/
theorem contactFormHandler_validation_branches_witness :
    truthy (none : Option String) = false ∧
    (contactFormHandler none (some "a@b.c") none (some "hello") none 7).statusCode = 400 ∧
    emailShapeTest "bad" = false ∧
    (contactFormHandler (some "Ann") (some "bad") none (some "hello") none 7).error =
      some "Invalid email address" ∧
    emailShapeTest "a@b.c" = true ∧
    (contactFormHandler (some "Ann") (some "a@b.c") none (some "hello") none 7).statusCode
      = 200 := by
  refine ⟨rfl, ?_, by decide, ?_, by decide, ?_⟩
  · exact ((contactFormHandler_validation_branches none (some "a@b.c") none (some "hello")
      none 7).1 (Or.inl rfl)).1
  · exact ((contactFormHandler_validation_branches (some "Ann") (some "bad") none
      (some "hello") none 7).2.1 (by decide) (by decide) (by decide) (by decide)).2
  · exact ((contactFormHandler_validation_branches (some "Ann") (some "a@b.c") none
      (some "hello") none 7).2.2 (by decide) (by decide) (by decide) (by decide)).1

/-- C10: search results carry the same ids in the same order for any two
collections that differ only in the author or content fields — those
fields are outside the search surface. -/
theorem search_ids_independent_of_author_content (A B : List Article) (q : String)
    (h : List.Forall₂ agreesOffAuthorContent A B) :
    (search A q).map (fun a => a.id) = (search B q).map (fun a => a.id) := by
  rw [search, search]
  by_cases ht : (trimChars q.data).isEmpty = true
  · rw [if_pos ht, if_pos ht]
  · rw [if_neg ht, if_neg ht]
    exact forall2_ids_eq (List.forall₂_take 8
      (forall2_filter_congr (fun a b hab => matchesQuery_congr q hab) h))

/-- A copy of seed article 3 with a different author and content. -/
def mockArticle3Alt : Article :=
  { mockArticle3 with author := "Someone Else", content := "a different body" }

/-- Witness for C10: varying author and content of the only article leaves
the search result ids unchanged. -/
theorem search_ids_independent_of_author_content_witness :
    List.Forall₂ agreesOffAuthorContent [mockArticle3] [mockArticle3Alt] ∧
    (search [mockArticle3] "rugby").map (fun a => a.id) =
      (search [mockArticle3Alt] "rugby").map (fun a => a.id) := by
  have hrel : List.Forall₂ agreesOffAuthorContent [mockArticle3] [mockArticle3Alt] :=
    List.Forall₂.cons ⟨rfl, rfl, rfl, rfl, rfl, rfl, rfl, rfl⟩ List.Forall₂.nil
  exact ⟨hrel, search_ids_independent_of_author_content _ _ "rugby" hrel⟩
